import Mathlib

/-!
Verification development for the `react-native-glitter` shimmer component
(`src/index.tsx`).  JavaScript numbers are embedded as exact rationals `ℚ`.
The one place the source can produce a floating-point `NaN` — the division
`distance / center` when `center = 0`, i.e. `count = 1` — is made explicit by
returning `Option ℚ`, with `none` standing for the JS `NaN` (in JS,
`0/0 = NaN`, every comparison with `NaN` is false, and `Math.max(0, NaN)`
is `NaN`, so the `NaN` propagates to the returned array element).
Trigonometric quantities (`Math.tan`, `Math.cos`, `Math.sin` of the angle)
are transcendental; the geometry definitions take the tangent / cosine /
sine values as rational parameters, instantiated exactly at angle `0`
(`tan 0 = 0`, `cos 0 = 1`, `sin 0 = 0`) where concrete evaluation is needed.
Features that the specification covers but that are absent from the source
snapshot (the finite-iteration playback controller, the vertical segment
generator, the reduced-motion guard) are modelled from the spec and marked
as such in their doc comments.
-/

/-- Source `generateGlitterOpacities`, line 39: `const center = (count - 1) / 2`. -/
def glitterCenter (count : ℕ) : ℚ := ((count : ℚ) - 1) / 2

/-- Source lines 45–54: the three-zone opacity formula applied to the
normalized distance `d`.  `0.15`, `0.3`, `0.7`, `0.6`, `0.4` are the source
literals. -/
def glitterZone (peak d : ℚ) : ℚ :=
  if d < 0.15 then peak
  else if d < 0.3 then peak * (1 - (d - 0.15) / 0.15 * 0.6)
  else peak * 0.4 * (1 - (d - 0.3) / 0.7) ^ 2

/-- Source lines 42–56 for one index `i`, in the non-degenerate case
`center ≠ 0`: `distance = |i - center|`, `normalizedDistance = distance/center`,
zone formula, then `Math.max(0, opacity)`. -/
def glitterVal (count : ℕ) (peak : ℚ) (i : ℕ) : ℚ :=
  max 0 (glitterZone peak (|(i : ℚ) - glitterCenter count| / glitterCenter count))

/-- Source lines 41–57 for one index.  When `center = 0` (that is,
`count = 1`) the JS computes `0/0 = NaN`, the zone comparisons are all false,
and `Math.max(0, NaN) = NaN`; the pushed element is `NaN`, modelled `none`. -/
def glitterOpacity (count : ℕ) (peak : ℚ) (i : ℕ) : Option ℚ :=
  if glitterCenter count = 0 then none
  else some (glitterVal count peak i)

/-- Source `generateGlitterOpacities` (lines 37–60): the loop
`for (let i = 0; i < count; i++)` pushing one opacity per index. -/
def generateGlitterOpacities (count : ℕ) (peak : ℚ) : List (Option ℚ) :=
  (List.range count).map (glitterOpacity count peak)

/-- Follows the spec's words (§4.1 and claim C2): `d = |i − center| / center`
with `center = (count−1)/2`; `peak` when `d < 0.15`; `peak·(1 − 0.6·t)` with
`t = (d−0.15)/0.15` when `0.15 ≤ d < 0.30`; `peak·0.4·(1−t)²` with
`t = (d−0.30)/0.70` when `d ≥ 0.30`; every result clamped to be `≥ 0`. -/
def specOpacityProfile (count : ℕ) (peak : ℚ) (i : ℕ) : ℚ :=
  let center : ℚ := ((count : ℚ) - 1) / 2
  let d : ℚ := |(i : ℚ) - center| / center
  max 0 (if d < 0.15 then peak
    else if d < 0.3 then peak * (1 - 0.6 * ((d - 0.15) / 0.15))
    else peak * 0.4 * (1 - (d - 0.3) / 0.7) ^ 2)

/-- JS `Math.round`: round half toward positive infinity. -/
def jsRound (q : ℚ) : ℤ := ⌊q + 1 / 2⌋

/-- Source line 166: `Math.max(11, Math.round(shimmerWidth / 3))`. -/
def layerCount (shimmerWidth : ℚ) : ℤ := max 11 (jsRound (shimmerWidth / 3))

/-- Source line 167: the component invokes the generator with `layerCount`
layers and `peak = 1`. -/
def componentOpacities (shimmerWidth : ℚ) : List (Option ℚ) :=
  generateGlitterOpacities (layerCount shimmerWidth).toNat 1

/-- Source line 124: `Math.tan((angle * Math.PI) / 180) * 200`, parameterized
by the exact value of the tangent. -/
def extraWidth (tanA : ℚ) : ℚ := tanA * 200

/-- Source line 132: `containerHeight / Math.cos(angleRad)`, parameterized by
the exact value of the cosine. -/
def lineHeight (containerHeight cosA : ℚ) : ℚ := containerHeight / cosA

/-- Source lines 126–129: the Animated two-point interpolation of
`translateX` from progress `p ∈ [0,1]` over the output range
`[-shimmerWidth - extraWidth, containerWidth + shimmerWidth]`. -/
def translateAt (shimmerWidth extraW containerWidth p : ℚ) : ℚ :=
  (-shimmerWidth - extraW) + p * ((containerWidth + shimmerWidth) - (-shimmerWidth - extraW))

/-- Horizontal center of the band at progress `p`: the shimmer container is
an absolute fill of the container with its single child of width
`shimmerWidth` centered (`justifyContent: center`, source lines 241–246),
shifted by `translateX`; the band's rest center is `containerWidth / 2`. -/
def bandCenterX (containerWidth shimmerWidth extraW p : ℚ) : ℚ :=
  containerWidth / 2 + translateAt shimmerWidth extraW containerWidth p

/-- Half of the horizontal extent of the band's bounding box: the wrapper of
width `shimmerWidth` and height `lineH` rotated by the angle (source lines
192–200) spans `shimmerWidth·cos + lineH·|sin|` horizontally. -/
def bandHalfExtent (shimmerWidth lineH cosA sinA : ℚ) : ℚ :=
  (shimmerWidth * cosA + lineH * |sinA|) / 2

/-- The band lies fully outside the container `[0, containerWidth]`: entirely
to the left or entirely to the right. -/
def bandOutsideContainer (containerWidth shimmerWidth lineH cosA sinA extraW p : ℚ) : Prop :=
  bandCenterX containerWidth shimmerWidth extraW p
      + bandHalfExtent shimmerWidth lineH cosA sinA ≤ 0 ∨
  containerWidth ≤ bandCenterX containerWidth shimmerWidth extraW p
      - bandHalfExtent shimmerWidth lineH cosA sinA

/-- Source line 182: the render guard `active && containerWidth > 0 &&
containerHeight > 0` controlling whether any shimmer layers are emitted. -/
def rendersShimmer (active : Bool) (containerWidth containerHeight : ℚ) : Bool :=
  active && decide (0 < containerWidth) && decide (0 < containerHeight)

/-- Source lines 82–83: `startAnimation` returns early (starts nothing) on
`!active || containerWidth === 0`; it runs the animation otherwise. -/
def startAnimationRuns (active : Bool) (containerWidth : ℚ) : Bool :=
  active && decide (containerWidth ≠ 0)

/-- Modelled from the spec: the v1.0.7 `respectReduceMotion` suppression is
absent from the snapshot under verification — per §4.3, rendering is also
suppressed when reduced motion is in effect and being respected, on top of
the snapshot's own guard. -/
def rendersShimmerFull (active : Bool) (containerWidth containerHeight : ℚ)
    (reducedMotion respectReduceMotion : Bool) : Bool :=
  rendersShimmer active containerWidth containerHeight
    && !(reducedMotion && respectReduceMotion)

/-- Modelled from the spec: §4.4 entry preconditions for leaving idle
(`active = true`, measured width positive, not reduced-motion-respected);
callbacks fire only for an activation, i.e. only after leaving idle. -/
def controllerLeavesIdle (active : Bool) (containerWidth : ℚ)
    (reducedMotion respectReduceMotion : Bool) : Bool :=
  active && decide (0 < containerWidth) && !(reducedMotion && respectReduceMotion)

/-- Modelled from the spec: the events the §4.4 Playback Controller reacts to
in finite mode — a cycle's tween finishing uninterrupted, or an interruption
(stop, unmount, `active` flips false, reduced motion engages). -/
inductive PlayEv where
  | complete : PlayEv
  | interrupt : PlayEv
  deriving DecidableEq

/-- Modelled from the spec: §4.4 controller state for one activation —
whether a cycle is running, the iteration counter, and how many times the
completion callback has been invoked. -/
structure PlayState where
  running : Bool
  iter : ℕ
  fired : ℕ
  deriving DecidableEq

/-- Modelled from the spec: §4.4 finite-mode transition rules.  After each
completed cycle the counter increments; if the counter is still below `N` a
new cycle starts, else the controller stops and invokes the completion
callback.  An interruption cancels the in-flight cycle with no callback.
Once stopped, stale events are suppressed (the activation-epoch check of
§5/§9), so no event changes a stopped state. -/
def playStep (N : ℕ) (s : PlayState) (e : PlayEv) : PlayState :=
  if s.running then
    match e with
    | .interrupt => { s with running := false }
    | .complete =>
      if s.iter + 1 < N then { s with iter := s.iter + 1 }
      else { running := false, iter := s.iter + 1, fired := s.fired + 1 }
  else s

/-- Modelled from the spec: one activation of the finite-mode controller —
progress and the counter reset on entering running, then events are
processed sequentially. -/
def playRun (N : ℕ) (es : List PlayEv) : PlayState :=
  es.foldl (playStep N) { running := true, iter := 0, fired := 0 }

/-- The finite-iteration property of claim C5 for iteration bound `N`, an
interruption point `k < N`, and arbitrary event continuations: the
completion callback fires exactly once after the `N`-th completed cycle,
had not fired before the `N`-th cycle, never fires when the run is
interrupted after only `k` completed cycles, and never fires more than
once on any event sequence. -/
def PlayFiniteOK (N k : ℕ) (rest tail : List PlayEv) : Prop :=
  (playRun N (List.replicate N .complete ++ rest)).fired = 1 ∧
  (playRun N (List.replicate k .complete)).fired = 0 ∧
  (playRun N (List.replicate k .complete ++ .interrupt :: tail)).fired = 0 ∧
  (∀ es : List PlayEv, (playRun N es).fired ≤ 1)

/-- Modelled from the spec: §4.2 `generateVerticalSegments` — one edge of 5
fade steps, step `k` (1-indexed) getting `heightRatio = fadeRatio/5` and
`opacity = (k/5)²`. -/
def fadeEdge (fadeRatio : ℚ) : List (ℚ × ℚ) :=
  (List.range 5).map fun k => (fadeRatio / 5, (((k : ℚ) + 1) / 5) ^ 2)

/-- Modelled from the spec: §4.2 `generateVerticalSegments` — the leading
fade edge, one central solid segment of height `1 − 2·fadeRatio` at opacity
exactly 1, and the trailing edge mirroring the leading edge in reverse
order.  Each pair is `(heightRatio, opacity)`, ordered top to bottom. -/
def generateVerticalSegments (fadeRatio : ℚ) : List (ℚ × ℚ) :=
  fadeEdge fadeRatio ++ [(1 - 2 * fadeRatio, 1)] ++ (fadeEdge fadeRatio).reverse

/-- The properties claim C8 asserts of the segment list at fade ratio `f`:
11 segments, heightRatios summing to exactly 1, palindromic order, central
segment solid at opacity 1, and each leading-edge step `k` (0-indexed)
carrying `(f/5, ((k+1)/5)²)`. -/
def VerticalSegmentsOK (f : ℚ) : Prop :=
  (generateVerticalSegments f).length = 11 ∧
  ((generateVerticalSegments f).map Prod.fst).sum = 1 ∧
  (generateVerticalSegments f).reverse = generateVerticalSegments f ∧
  (generateVerticalSegments f)[(5 : ℕ)]? = some (1 - 2 * f, 1) ∧
  (∀ k : ℕ, k < 5 →
    (generateVerticalSegments f)[k]? = some (f / 5, (((k : ℚ) + 1) / 5) ^ 2))

/-- The profile properties claim C1 asserts of `generateGlitterOpacities`:
exactly `count` values, each a real in `[0, peak]`, with opacity a
non-increasing function of the distance to the array center — hence maximal
at the index nearest the center (`(count−1)/2` rounded down) and
monotonically non-increasing moving outward in each direction. -/
def GlitterProfileOK (count : ℕ) (peak : ℚ) : Prop :=
  (generateGlitterOpacities count peak).length = count ∧
  (∀ i, i < count → ∃ q, glitterOpacity count peak i = some q ∧ 0 ≤ q ∧ q ≤ peak) ∧
  (∀ i j, i < count → j < count →
    |(i : ℚ) - glitterCenter count| ≤ |(j : ℚ) - glitterCenter count| →
    ∀ qi qj, glitterOpacity count peak i = some qi →
      glitterOpacity count peak j = some qj → qj ≤ qi) ∧
  (∀ j, j < count →
    ∀ qm qj, glitterOpacity count peak ((count - 1) / 2) = some qm →
      glitterOpacity count peak j = some qj → qj ≤ qm)

/-- The center of the opacity profile is positive for at least two layers. -/
theorem glitterCenter_pos (count : ℕ) (hc : 2 ≤ count) : 0 < glitterCenter count := by
  have h2 : (2 : ℚ) ≤ (count : ℚ) := by exact_mod_cast hc
  unfold glitterCenter
  linarith

/-- Every in-range index is at normalized distance at most 1 from the center. -/
theorem normDist_le_one (count : ℕ) (i : ℕ) (hc : 2 ≤ count) (hi : i < count) :
    |(i : ℚ) - glitterCenter count| / glitterCenter count ≤ 1 := by
  have hpos := glitterCenter_pos count hc
  rw [div_le_one hpos]
  have hi' : (i : ℚ) ≤ (count : ℚ) - 1 := by
    have h : (i : ℚ) + 1 ≤ (count : ℚ) := by exact_mod_cast hi
    linarith
  have h0 : (0 : ℚ) ≤ (i : ℚ) := by positivity
  rw [abs_le]
  unfold glitterCenter
  constructor <;> [linarith; linarith]

/-- Index `(count−1)/2` (floor) is a nearest index to the rational center. -/
theorem centerIndex_nearest (count : ℕ) (hc : 2 ≤ count) (j : ℕ) :
    |(((count - 1) / 2 : ℕ) : ℚ) - glitterCenter count| ≤
      |(j : ℚ) - glitterCenter count| := by
  have h1 : 1 ≤ count := le_trans (by norm_num) hc
  rcases Nat.even_or_odd (count - 1) with ⟨k, hk⟩ | ⟨k, hk⟩
  · have hm : (count - 1) / 2 = k := by omega
    have hcast : (count : ℚ) - 1 = 2 * (k : ℚ) := by
      have h : ((count - 1 : ℕ) : ℚ) = (count : ℚ) - 1 := by
        push_cast [Nat.cast_sub h1]
        ring
      rw [← h, hk]
      push_cast
      ring
    have hz : (((count - 1) / 2 : ℕ) : ℚ) - glitterCenter count = 0 := by
      rw [hm]
      unfold glitterCenter
      rw [hcast]
      ring
    rw [hz, abs_zero]
    exact abs_nonneg _
  · have hm : (count - 1) / 2 = k := by omega
    have hcast : (count : ℚ) - 1 = 2 * (k : ℚ) + 1 := by
      have h : ((count - 1 : ℕ) : ℚ) = (count : ℚ) - 1 := by
        push_cast [Nat.cast_sub h1]
        ring
      rw [← h, hk]
      push_cast
      ring
    have hcen : glitterCenter count = (k : ℚ) + 1 / 2 := by
      unfold glitterCenter
      rw [hcast]
      ring
    have hl : |(((count - 1) / 2 : ℕ) : ℚ) - glitterCenter count| = 1 / 2 := by
      rw [hm, hcen, abs_of_nonpos (by linarith)]
      ring
    rw [hl, hcen]
    rcases le_or_lt j k with hj | hj
    · have hjq : (j : ℚ) ≤ (k : ℚ) := by exact_mod_cast hj
      rw [abs_of_nonpos (by linarith)]
      linarith
    · have hjq : (k : ℚ) + 1 ≤ (j : ℚ) := by exact_mod_cast hj
      rw [abs_of_nonneg (by linarith)]
      linarith

/-- The zone formula with its literal-rational divisions cleared: an
equivalent piecewise-polynomial form used by the inequality proofs. -/
theorem glitterZone_eq_poly (peak d : ℚ) :
    glitterZone peak d =
      if d < 3 / 20 then peak
      else if d < 3 / 10 then peak * (8 / 5 - 4 * d)
      else peak * (40 / 49) * (1 - d) ^ 2 := by
  unfold glitterZone
  norm_num
  split_ifs <;> ring

/-- The zone formula never exceeds the peak on normalized distances `≤ 1`. -/
theorem glitterZone_le_peak (peak d : ℚ) (hp : 0 ≤ peak) (hd1 : d ≤ 1) :
    glitterZone peak d ≤ peak := by
  rw [glitterZone_eq_poly]
  split_ifs with h1 h2
  · exact le_rfl
  · push_neg at h1
    nlinarith [mul_nonneg hp (by linarith : (0 : ℚ) ≤ 4 * d - 3 / 5)]
  · push_neg at h1 h2
    have hq : (1 - d) ^ 2 ≤ 49 / 100 := by
      nlinarith [mul_nonneg (by linarith : (0 : ℚ) ≤ 1 - d)
        (by linarith : (0 : ℚ) ≤ 7 / 10 - (1 - d))]
    nlinarith [mul_nonneg hp (by nlinarith : (0 : ℚ) ≤ 1 - 40 / 49 * (1 - d) ^ 2)]

/-- The zone formula is non-increasing on normalized distances in `[0, 1]`. -/
theorem glitterZone_anti (peak d1 d2 : ℚ) (hp : 0 ≤ peak)
    (hle : d1 ≤ d2) (h2 : d2 ≤ 1) :
    glitterZone peak d2 ≤ glitterZone peak d1 := by
  rw [glitterZone_eq_poly, glitterZone_eq_poly]
  split_ifs with a1 b1 b2 c1 c2 <;> push_neg at *
  · exact le_rfl
  · linarith
  · linarith
  · nlinarith [mul_nonneg hp (by linarith : (0 : ℚ) ≤ 4 * d2 - 3 / 5)]
  · nlinarith [mul_nonneg hp (by linarith : (0 : ℚ) ≤ 4 * (d2 - d1))]
  · linarith
  · have hq : (1 - d2) ^ 2 ≤ 49 / 100 := by
      nlinarith [mul_nonneg (by linarith : (0 : ℚ) ≤ 1 - d2)
        (by linarith : (0 : ℚ) ≤ 7 / 10 - (1 - d2))]
    nlinarith [mul_nonneg hp (by nlinarith : (0 : ℚ) ≤ 1 - 40 / 49 * (1 - d2) ^ 2)]
  · have hq : (1 - d2) ^ 2 ≤ 49 / 100 := by
      nlinarith [mul_nonneg (by linarith : (0 : ℚ) ≤ 1 - d2)
        (by linarith : (0 : ℚ) ≤ 7 / 10 - (1 - d2))]
    nlinarith [mul_nonneg hp
      (by nlinarith : (0 : ℚ) ≤ (8 / 5 - 4 * d1) - 40 / 49 * (1 - d2) ^ 2)]
  · have hsq : (0 : ℚ) ≤ (1 - d1) ^ 2 - (1 - d2) ^ 2 := by
      nlinarith [mul_nonneg (by linarith : (0 : ℚ) ≤ d2 - d1)
        (by linarith : (0 : ℚ) ≤ 2 - d1 - d2)]
    nlinarith [mul_nonneg hp hsq]

/-- A layer closer to the center never has a smaller opacity value. -/
theorem glitterVal_anti (count : ℕ) (peak : ℚ) (i j : ℕ) (hc : 2 ≤ count)
    (hj : j < count) (hp : 0 ≤ peak)
    (habs : |(i : ℚ) - glitterCenter count| ≤ |(j : ℚ) - glitterCenter count|) :
    glitterVal count peak j ≤ glitterVal count peak i := by
  have hpos := glitterCenter_pos count hc
  apply max_le_max le_rfl
  apply glitterZone_anti _ _ _ hp
  · exact (div_le_div_iff_of_pos_right hpos).mpr habs
  · exact normDist_le_one count j hc hj

/-- Evaluation of the generator at the degenerate call `count = 1`:
`center = 0`, the JS divides `0/0 = NaN`, and the single element is `NaN`. -/
theorem glitter_count_one_eval : generateGlitterOpacities 1 1 = [none] := by
  norm_num [generateGlitterOpacities, glitterOpacity, glitterCenter, List.range_succ]

/-- Claim C1 (amended to `count ≥ 2`): for every integer `count ≥ 2` and peak
in `(0,1]`, the opacity profile generator returns exactly `count` values,
each in `[0, peak]`, maximal at the center index, and monotonically
non-increasing moving outward from the center in each direction. -/
theorem generateGlitterOpacities_profile (count : ℕ) (peak : ℚ)
    (hc : 2 ≤ count) (hp0 : 0 < peak) (hp1 : peak ≤ 1) :
    GlitterProfileOK count peak := by
  have hpos := glitterCenter_pos count hc
  have hne : glitterCenter count ≠ 0 := ne_of_gt hpos
  have hval : ∀ i, glitterOpacity count peak i = some (glitterVal count peak i) := by
    intro i
    simp [glitterOpacity, hne]
  refine ⟨?_, ?_, ?_, ?_⟩
  · simp [generateGlitterOpacities]
  · intro i hi
    refine ⟨glitterVal count peak i, hval i, le_max_left _ _, ?_⟩
    exact max_le hp0.le (glitterZone_le_peak peak _ hp0.le (normDist_le_one count i hc hi))
  · intro i j hi hj habs qi qj hqi hqj
    rw [hval i] at hqi
    rw [hval j] at hqj
    injection hqi with hqi
    injection hqj with hqj
    rw [← hqi, ← hqj]
    exact glitterVal_anti count peak i j hc hj hp0.le habs
  · intro j hj qm qj hqm hqj
    rw [hval _] at hqm
    rw [hval j] at hqj
    injection hqm with hqm
    injection hqj with hqj
    rw [← hqm, ← hqj]
    exact glitterVal_anti count peak _ j hc hj hp0.le (centerIndex_nearest count hc j)

/-- Witness for claim C1's theorem at `count = 11`, `peak = 1`. -/
theorem generateGlitterOpacities_profile_witness :
    2 ≤ 11 ∧ (0 : ℚ) < 1 ∧ (1 : ℚ) ≤ 1 ∧ GlitterProfileOK 11 1 :=
  ⟨by norm_num, by norm_num, le_rfl,
    generateGlitterOpacities_profile 11 1 (by norm_num) (by norm_num) le_rfl⟩

/-- Counterexample to claim C1 as stated (`count ≥ 1`): at `count = 1`,
`peak = 1`, the generator's single returned element is the JS `NaN`
(modelled `none`), which is not a value in `[0, peak]`. -/
theorem generateGlitterOpacities_count_one_not_in_range :
    ¬ (∀ o ∈ generateGlitterOpacities 1 1, ∃ q, o = some q ∧ 0 ≤ q ∧ q ≤ 1) := by
  intro h
  have hm : (none : Option ℚ) ∈ generateGlitterOpacities 1 1 := by
    rw [glitter_count_one_eval]
    exact List.mem_singleton.mpr rfl
  obtain ⟨q, hq, -, -⟩ := h none hm
  exact Option.noConfusion hq

/-- Claim C2: for every index of the opacity profile with the normalized
distance well defined (`count ≥ 2`, so `center ≠ 0`), the returned opacity
equals the spec's three-zone formula with its `≥ 0` clamp. -/
theorem glitterOpacity_matches_spec (count : ℕ) (peak : ℚ) (i : ℕ) (hc : 2 ≤ count) :
    glitterOpacity count peak i = some (specOpacityProfile count peak i) := by
  have hne := ne_of_gt (glitterCenter_pos count hc)
  rw [glitterOpacity, if_neg hne]
  simp only [glitterVal, glitterZone, specOpacityProfile, glitterCenter]
  congr 2
  split_ifs <;> ring

/-- Witness for claim C2's theorem at `count = 20`, `peak = 1`, `i = 0`. -/
theorem glitterOpacity_matches_spec_witness :
    2 ≤ 20 ∧ glitterOpacity 20 1 0 = some (specOpacityProfile 20 1 0) :=
  ⟨by norm_num, glitterOpacity_matches_spec 20 1 0 (by norm_num)⟩

/-- Claim C3: the derived layer count equals
`max(11, round(shimmerWidth/3))`; in particular `shimmerWidth = 60` yields
20 layers and `shimmerWidth = 100` yields 33 layers. -/
theorem layerCount_formula :
    layerCount 60 = 20 ∧ layerCount 100 = 33 ∧
      ∀ w : ℚ, layerCount w = max 11 (jsRound (w / 3)) :=
  ⟨by norm_num [layerCount, jsRound], by norm_num [layerCount, jsRound], fun _ => rfl⟩

/-- Claim C4 (refuting evaluation): at angle `0` (so `tan = 0`, `cos = 1`,
`sin = 0`, an angle inside the claimed `−80°..80°` range), container width
`300 > 0`, container height `80`, and the default `shimmerWidth = 60`, the
band at progress `0` occupies `x ∈ [60, 120]`, inside the container
`[0, 300]` — it is not fully outside, contradicting the claimed clipping
guarantee: the translation start `−shimmerWidth − extraTravel` does not
depend on the container width, and `extraTravel = tan(angle)·200` even
shrinks for negative angles. -/
theorem band_visible_at_progress_zero :
    ¬ bandOutsideContainer 300 60 (lineHeight 80 1) 1 0 (extraWidth 0) 0 := by
  norm_num [bandOutsideContainer, bandCenterX, translateAt, bandHalfExtent,
    lineHeight, extraWidth]

/-- Once stopped, a stale event leaves the controller state unchanged. -/
theorem playStep_stopped (N : ℕ) (s : PlayState) (e : PlayEv) (h : s.running = false) :
    playStep N s e = s := by
  simp [playStep, h]

/-- Once stopped, an entire stale event sequence leaves the state unchanged. -/
theorem playFold_stopped (N : ℕ) (es : List PlayEv) (s : PlayState) (h : s.running = false) :
    es.foldl (playStep N) s = s := by
  induction es with
  | nil => rfl
  | cons e es ih =>
    rw [List.foldl_cons, playStep_stopped N s e h]
    exact ih

/-- Processing `k` completed cycles while strictly below the bound keeps the
controller running, adds `k` to the counter, and fires nothing. -/
theorem playFold_completes (N : ℕ) (k i f : ℕ) (h : i + k < N) :
    List.foldl (playStep N) ⟨true, i, f⟩ (List.replicate k .complete) = ⟨true, i + k, f⟩ := by
  induction k generalizing i with
  | zero => simp
  | succ k ih =>
    rw [List.replicate_succ, List.foldl_cons]
    have hlt : i + 1 < N := by omega
    have hs : playStep N ⟨true, i, f⟩ .complete = ⟨true, i + 1, f⟩ := by
      simp [playStep, hlt]
    rw [hs]
    have he : i + 1 + k = i + (k + 1) := by omega
    rw [← he]
    exact ih (i + 1) (by omega)

/-- The cycle that reaches the bound stops the controller and fires the
completion callback once. -/
theorem playStep_final (N f i : ℕ) (hN : i + 1 = N) :
    playStep N ⟨true, i, f⟩ .complete = ⟨false, N, f + 1⟩ := by
  have h : ¬ (i + 1 < N) := by omega
  simp [playStep, h, hN]

/-- Invariant of the controller: while running the callback has not fired,
and the callback never fires more than once. -/
theorem playFold_inv (N : ℕ) (es : List PlayEv) (s : PlayState)
    (h1 : s.running = true → s.fired = 0) (h2 : s.fired ≤ 1) :
    ((es.foldl (playStep N) s).running = true → (es.foldl (playStep N) s).fired = 0) ∧
      (es.foldl (playStep N) s).fired ≤ 1 := by
  induction es generalizing s with
  | nil => exact ⟨h1, h2⟩
  | cons e es ih =>
    rw [List.foldl_cons]
    rcases hb : s.running with _ | _
    · rw [playStep_stopped N s e hb]
      exact ih s h1 h2
    · have hf : s.fired = 0 := h1 hb
      cases e
      · by_cases hlt : s.iter + 1 < N
        · apply ih
          · intro _
            simpa [playStep, hb, hlt] using hf
          · simpa [playStep, hb, hlt] using h2
        · apply ih
          · intro hcontra
            simp [playStep, hb, hlt] at hcontra
          · simp [playStep, hb, hlt, hf]
      · apply ih
        · intro hcontra
          simp [playStep, hb] at hcontra
        · simpa [playStep, hb] using h2

/-- Claim C5: in finite mode with `iterations = N ≥ 1`, cycles run
sequentially and the completion callback fires exactly once, after exactly
`N` completed cycles, and never fires if the run is interrupted after only
`k < N` completed cycles. -/
theorem playRun_finite (N k : ℕ) (hN : 1 ≤ N) (hk : k < N)
    (rest tail : List PlayEv) : PlayFiniteOK N k rest tail := by
  refine ⟨?_, ?_, ?_, ?_⟩
  · unfold playRun
    rw [List.foldl_append]
    have hsplit : N = (N - 1) + 1 := by omega
    have hrep : List.replicate N PlayEv.complete =
        List.replicate (N - 1) PlayEv.complete ++ [PlayEv.complete] := by
      rw [← List.replicate_succ']
      rw [← hsplit]
    rw [hrep, List.foldl_append]
    rw [playFold_completes N (N - 1) 0 0 (by omega)]
    simp only [List.foldl_cons, List.foldl_nil]
    rw [playStep_final N 0 (0 + (N - 1)) (by omega)]
    rw [playFold_stopped N rest _ rfl]
  · unfold playRun
    rw [playFold_completes N k 0 0 (by omega)]
  · unfold playRun
    rw [List.foldl_append]
    rw [playFold_completes N k 0 0 (by omega)]
    rw [List.foldl_cons]
    have hs : playStep N ⟨true, 0 + k, 0⟩ .interrupt = ⟨false, 0 + k, 0⟩ := by
      simp [playStep]
    rw [hs, playFold_stopped N tail _ rfl]
  · intro es
    exact (playFold_inv N es _ (fun _ => rfl) (by norm_num)).2

/-- Witness for claim C5's theorem at `N = 3`, `k = 2`, empty tails. -/
theorem playRun_finite_witness :
    1 ≤ 3 ∧ 2 < 3 ∧ PlayFiniteOK 3 2 [] [] :=
  ⟨by norm_num, by norm_num, playRun_finite 3 2 (by norm_num) (by norm_num) [] []⟩

/-- Claim C6: no shimmer layers are emitted when the container is unmeasured
(`width ≤ 0` or `height ≤ 0`), when `active` is false, or when reduced
motion is in effect and respected; with `active = false` no layers render,
no animation starts, and the controller never leaves idle (so no callbacks
fire). -/
theorem suppression_guards (active : Bool) (cw ch : ℚ) (rm rr : Bool)
    (h : cw ≤ 0 ∨ ch ≤ 0 ∨ active = false ∨ (rm = true ∧ rr = true)) :
    rendersShimmerFull active cw ch rm rr = false ∧
      (active = false → rendersShimmer active cw ch = false ∧
        startAnimationRuns active cw = false ∧
        controllerLeavesIdle active cw rm rr = false) := by
  constructor
  · rcases h with h | h | h | ⟨h1, h2⟩
    · simp [rendersShimmerFull, rendersShimmer, not_lt.mpr h]
    · simp [rendersShimmerFull, rendersShimmer, not_lt.mpr h]
    · simp [rendersShimmerFull, rendersShimmer, h]
    · simp [rendersShimmerFull, h1, h2]
  · intro ha
    simp [rendersShimmer, startAnimationRuns, controllerLeavesIdle, ha]

/-- Witness for claim C6's theorem: `active = false`, measured container
`100 × 50`, reduced motion off, respect on. -/
theorem suppression_guards_witness :
    ((100 : ℚ) ≤ 0 ∨ (50 : ℚ) ≤ 0 ∨ false = false ∨ (false = true ∧ true = true)) ∧
      (rendersShimmerFull false 100 50 false true = false ∧
        (false = false → rendersShimmer false 100 50 = false ∧
          startAnimationRuns false 100 = false ∧
          controllerLeavesIdle false 100 false true = false)) :=
  ⟨Or.inr (Or.inr (Or.inl rfl)),
    suppression_guards false 100 50 false true (Or.inr (Or.inr (Or.inl rfl)))⟩

/-- Claim C7 (refuting evaluation): for `count = 1` the code does not define
the distance as `0`; `center = 0` and the JS computes `0/0 = NaN`
(modelled `none`), so the returned list is `[NaN]`, not `[peak]`. -/
theorem generateGlitterOpacities_count_one_nan :
    glitterCenter 1 = 0 ∧ generateGlitterOpacities 1 1 = [none] ∧
      generateGlitterOpacities 1 1 ≠ [some 1] := by
  refine ⟨by norm_num [glitterCenter], glitter_count_one_eval, ?_⟩
  rw [glitter_count_one_eval]
  intro h
  have := List.head_eq_of_cons_eq h
  exact Option.noConfusion this

/-- The fade edge evaluated: five steps of height `f/5` with quadratically
eased opacities `1/25, 4/25, 9/25, 16/25, 1`. -/
theorem fadeEdge_eval (f : ℚ) :
    fadeEdge f = [(f / 5, 1 / 25), (f / 5, 4 / 25), (f / 5, 9 / 25),
      (f / 5, 16 / 25), (f / 5, 1)] := by
  norm_num [fadeEdge, List.range_succ]

/-- Claim C8: for every `fadeRatio ∈ [0, 0.5)` the vertical segment
generator returns 5 fade steps per edge with `heightRatio = fadeRatio/5`
and opacity `(k/5)²`, one central solid segment at opacity exactly 1,
heightRatios summing to exactly 1, and a palindromic order. -/
theorem generateVerticalSegments_props (f : ℚ) (h0 : 0 ≤ f) (h1 : f < 1 / 2) :
    VerticalSegmentsOK f := by
  refine ⟨?_, ?_, ?_, ?_, ?_⟩
  · simp [generateVerticalSegments, fadeEdge_eval]
  · simp [generateVerticalSegments, fadeEdge_eval]
    ring
  · simp [generateVerticalSegments, fadeEdge_eval]
  · simp [generateVerticalSegments, fadeEdge_eval]
  · intro k hk
    interval_cases k <;> simp [generateVerticalSegments, fadeEdge_eval] <;> norm_num

/-- Witness for claim C8's theorem at `fadeRatio = 1/4`. -/
theorem generateVerticalSegments_props_witness :
    (0 : ℚ) ≤ 1 / 4 ∧ (1 / 4 : ℚ) < 1 / 2 ∧ VerticalSegmentsOK (1 / 4) :=
  ⟨by norm_num, by norm_num,
    generateVerticalSegments_props (1 / 4) (by norm_num) (by norm_num)⟩

/-- Counterexample to claim C9 as stated: the multiplier is neither constant
nor strictly greater than 1 — at angle `0` (`cos = 1`) the line height
equals the container height exactly (multiplier 1), and at `cos = 1/2`
(angle `60°`) the multiplier is 2, not the claimed `1.5`. -/
theorem lineHeight_not_constant_multiplier :
    lineHeight 100 1 = 100 ∧ ¬ ((100 : ℚ) < lineHeight 100 1) ∧
      lineHeight 100 (1 / 2) ≠ 1.5 * 100 := by
  norm_num [lineHeight]

/-- Claim C9 (amended): the line height equals the container height divided
by the cosine of the angle — an angle-dependent multiplier `1/cos ≥ 1`
(equal to 1 at angle 0), not a constant `1.5×`; for any angle with
`0 < cos ≤ 1` the line is at least as tall as the container. -/
theorem lineHeight_covers_container (containerHeight cosA : ℚ)
    (hpos : 0 < cosA) (hone : cosA ≤ 1) (hch : 0 ≤ containerHeight) :
    lineHeight containerHeight cosA = containerHeight / cosA ∧
      containerHeight ≤ lineHeight containerHeight cosA := by
  refine ⟨rfl, ?_⟩
  rw [lineHeight, le_div_iff₀ hpos]
  nlinarith

/-- Witness for claim C9's amended theorem at `containerHeight = 100`,
`cos = 1/2`. -/
theorem lineHeight_covers_container_witness :
    (0 : ℚ) < 1 / 2 ∧ (1 / 2 : ℚ) ≤ 1 ∧ (0 : ℚ) ≤ 100 ∧
      (lineHeight 100 (1 / 2) = 100 / (1 / 2) ∧ (100 : ℚ) ≤ lineHeight 100 (1 / 2)) :=
  ⟨by norm_num, by norm_num, by norm_num,
    lineHeight_covers_container 100 (1 / 2) (by norm_num) (by norm_num) (by norm_num)⟩

/-- Claim C10: for every `shimmerWidth` the derived layer count is at least
11, so the component only ever invokes the opacity generator with at least
11 layers; the center is then positive and every component-driven opacity is
a genuine value (the `count = 1` NaN branch is unreachable through the
public interface). -/
theorem layerCount_min (w peak : ℚ) (i : ℕ) :
    11 ≤ layerCount w ∧ 0 < glitterCenter (layerCount w).toNat ∧
      (glitterOpacity (layerCount w).toNat peak i).isSome = true ∧
      ∀ o ∈ componentOpacities w, o.isSome = true := by
  have h11 : (11 : ℤ) ≤ layerCount w := le_max_left _ _
  have h2 : 2 ≤ (layerCount w).toNat := by omega
  have hpos := glitterCenter_pos _ h2
  refine ⟨h11, hpos, ?_, ?_⟩
  · simp [glitterOpacity, ne_of_gt hpos]
  · intro o ho
    simp only [componentOpacities, generateGlitterOpacities, List.mem_map] at ho
    obtain ⟨j, -, rfl⟩ := ho
    simp [glitterOpacity, ne_of_gt hpos]
